import Mathlib

/-!
Shallow embedding of the accessibility-tree traversal engine of
`windows_use/tree/__init__.py` (class `Tree`), together with the pieces of
its data model (`windows_use/tree/views.py`), configuration
(`windows_use/tree/config.py`) and utilities (`windows_use/tree/utils.py`)
that the traversal needs; those three modules are not part of the sources
and are modelled from the specification where required.

Platform controls (the external `uiautomation` library) are modelled as
finite trees carrying the queried properties.  A platform query that can
raise an exception is modelled as an `Option` field (`none` means the query
raises), and code paths on which an exception propagates are modelled in
the `Except Unit` monad: `Except.error ()` is a propagating exception.
Repeated queries of the same property on the same control handle return
the same value within one snapshot, which matches the idempotence
assumption stated in the specification.
-/

deriving instance DecidableEq for Except

/-- Python `str.title()` on a list of characters: the first character of each
alphabetic run is upper-cased, subsequent alphabetic characters are
lower-cased, other characters are kept. -/
def titleCaseAux : Bool → List Char → List Char
  | _, [] => []
  | prevAlpha, c :: cs =>
    (if c.isAlpha then (if prevAlpha then c.toLower else c.toUpper) else c) ::
      titleCaseAux c.isAlpha cs

/-- Python `str.title()`. -/
def pytitle (s : String) : String := ⟨titleCaseAux false s.data⟩

/-- Python `str.capitalize()`: first character upper-cased, the rest
lower-cased. -/
def pycapitalize (s : String) : String :=
  match s.data with
  | [] => ""
  | c :: cs => ⟨c.toUpper :: cs.map Char.toLower⟩

/-- Python `str.strip()`: remove leading and trailing whitespace. -/
def pystrip (s : String) : String :=
  ⟨((s.data.dropWhile Char.isWhitespace).reverse.dropWhile Char.isWhitespace).reverse⟩

/-- The two-apostrophe sentinel the traversal stores for blank names and
missing keyboard shortcuts. -/
def emptySentinel : String := "\x27\x27"

/-- Python `s or "''"` for a string `s`: the empty string is falsy and is
replaced by the sentinel. -/
def orSentinel (s : String) : String := if s = "" then emptySentinel else s

/-- Python `s.strip() or "''"`. -/
def stripOrSentinel (s : String) : String := orSentinel (pystrip s)

/-- Python `name.strip() or localized.capitalize() or "''"`, used for the
name of a scrollable node. -/
def scrollName (nm lct : String) : String :=
  if pystrip nm = "" then
    (if pycapitalize lct = "" then emptySentinel else pycapitalize lct)
  else pystrip nm

/-- The rectangle type of the platform accessibility API
(`uiautomation.Rect`): `left`/`top`/`right`/`bottom` in pixels,
`width = right - left`, `height = bottom - top`, `xcenter`/`ycenter` by
Python floor division, `isempty` when the width or the height is not
positive. -/
structure Rect where
  left : Int
  top : Int
  right : Int
  bottom : Int
deriving DecidableEq, Repr

def Rect.width (r : Rect) : Int := r.right - r.left

def Rect.height (r : Rect) : Int := r.bottom - r.top

def Rect.xcenter (r : Rect) : Int := r.left + r.width / 2

def Rect.ycenter (r : Rect) : Int := r.top + r.height / 2

def Rect.isempty (r : Rect) : Bool := decide (r.width ≤ 0) || decide (r.height ≤ 0)

/-- Modelled from the spec: `windows_use/tree/views.py` is not in the
sources.  `BoundingBox` is an axis-aligned screen rectangle with
`width = right - left` and `height = bottom - top` recorded explicitly. -/
structure BoundingBox where
  left : Int
  top : Int
  right : Int
  bottom : Int
  width : Int
  height : Int
deriving DecidableEq, Repr

/-- Modelled from the spec: `windows_use/tree/views.py` is not in the
sources.  `Center` is a click-target point. -/
structure Center where
  x : Int
  y : Int
deriving DecidableEq, Repr

/-- Modelled from the spec: `windows_use/tree/views.py` is not in the
sources.  An actionable UI control as recorded by the traversal. -/
structure TreeElementNode where
  name : String
  control_type : String
  shortcut : String
  bounding_box : BoundingBox
  center : Center
  app_name : String
deriving DecidableEq, Repr

/-- Modelled from the spec: `windows_use/tree/views.py` is not in the
sources.  Non-interactive readable content; no geometry is retained. -/
structure TextElementNode where
  name : String
  app_name : String
deriving DecidableEq, Repr

/-- Modelled from the spec: `windows_use/tree/views.py` is not in the
sources.  A scrollable container. -/
structure ScrollElementNode where
  name : String
  app_name : String
  control_type : String
  bounding_box : BoundingBox
  center : Center
  horizontal_scrollable : Bool
  vertical_scrollable : Bool
deriving DecidableEq, Repr

/-- Modelled from the spec: `windows_use/tree/views.py` is not in the
sources.  One full snapshot. -/
structure TreeState where
  interactive_nodes : List TreeElementNode
  informative_nodes : List TextElementNode
  scrollable_nodes : List ScrollElementNode
deriving DecidableEq, Repr

/-- Modelled from the spec: `windows_use/tree/config.py` is not in the
sources.  The interactive control-type allow-list; the generic group
container is deliberately not in it (it is handled by a dedicated branch of
the interactive classifier). -/
def INTERACTIVE_CONTROL_TYPE_NAMES : List String :=
  ["ButtonControl", "EditControl", "CheckBoxControl", "RadioButtonControl",
   "ComboBoxControl", "HyperlinkControl", "ListItemControl", "MenuItemControl",
   "TabItemControl", "TreeItemControl", "SplitButtonControl"]

/-- Modelled from the spec: `windows_use/tree/config.py` is not in the
sources.  The informative control-type allow-list. -/
def INFORMATIVE_CONTROL_TYPE_NAMES : List String := ["TextControl"]

/-- Modelled from the spec: `windows_use/tree/config.py` is not in the
sources.  The fixed allow-list of legacy default-action verbs, stored in
title case because the classifier compares the title-cased action against
it. -/
def DEFAULT_ACTIONS : List String :=
  ["Click", "Invoke", "Press", "Open", "Select", "Switch", "Check",
   "Uncheck", "Jump", "Double Click"]

/-- Modelled from the spec: `windows_use/desktop/config.py` is not in the
sources.  Top-level application names excluded from the snapshot. -/
def AVOIDED_APPS : List String := ["Recording toolbar"]

/-- The two flags of a platform scroll pattern
(`uiautomation.ScrollPattern`). -/
structure ScrollPat where
  verticallyScrollable : Bool
  horizontallyScrollable : Bool
deriving DecidableEq, Repr

/-- The properties of one platform control handle that the traversal
queries.  `Option` fields model queries that can raise (`none` = the query
raises an exception); `childrenRaise` models `GetChildren` raising, which
is how a whole application subtree becomes unreadable mid-scan. -/
structure CtrlData where
  name : String
  className : String
  controlTypeName : String
  localizedControlType : String
  acceleratorKey : String
  boundingRectangle : Rect
  isControlElement : Bool
  isOffscreen : Bool
  isImageControl : Bool
  isEnabled : Option Bool
  isKeyboardFocusable : Option Bool
  defaultAction : Option String
  scrollPattern : Option ScrollPat
  childrenRaise : Bool
deriving DecidableEq, Repr

/-- A platform control handle: its queried properties plus its children in
the accessibility tree. -/
inductive Ctrl where
  | mk (d : CtrlData) (children : List Ctrl)

def Ctrl.data : Ctrl → CtrlData
  | .mk d _ => d

def Ctrl.children : Ctrl → List Ctrl
  | .mk _ cs => cs

/-- `GetFirstChildControl()`: the head of the children list, `None` when
there is none. -/
def Ctrl.firstChild (c : Ctrl) : Option Ctrl := c.children.head?

/-- `GetChildren()`, which can raise when the application disappears
mid-scan. -/
def Ctrl.getChildren (c : Ctrl) : Except Unit (List Ctrl) :=
  if c.data.childrenRaise then Except.error () else Except.ok c.children

/-- Modelled from the spec: `windows_use/tree/utils.py` is not in the
sources.  "Click center is a randomly sampled point inside a shrunken
version of the bounding box (configurable shrink factor, default 0.5 for
controls, 0.8 for scroll containers)".  The shrunken box shares the box's
center and has width and height multiplied by the factor `fn / fd`; the
random draw is modelled by a pair `(u, v)` of integers in `[0, 1000]`
giving the position inside the shrunken box in thousandths, and the
resulting coordinates are rounded down (Euclidean division by the positive
constant `2000 * fd` is floor division). -/
def random_point_within_bounding_box (box : Rect) (fn fd u v : Int) : Int × Int :=
  let w := box.width
  let h := box.height
  let x := (1000 * fd * (box.left + box.right) - 1000 * fn * w + 2 * fn * w * u) / (2000 * fd)
  let y := (1000 * fd * (box.top + box.bottom) - 1000 * fn * h + 2 * fn * h * v) / (2000 * fd)
  (x, y)

/-- `is_element_visible` (lines 50-59): no internal exception handler; all
the properties it reads are modelled as total queries. -/
def is_element_visible (node : Ctrl) (threshold : Int) : Bool :=
  let is_control := node.data.isControlElement
  let box := node.data.boundingRectangle
  if box.isempty then false
  else
    let area := box.width * box.height
    let is_offscreen :=
      !node.data.isOffscreen || decide (node.data.controlTypeName ∈ (["EditControl"] : List String))
    decide (area > threshold) && is_offscreen && is_control

/-- `is_element_enabled` (lines 61-65): a raising `IsEnabled` query is
caught and collapsed to `false`. -/
def is_element_enabled (node : Ctrl) : Bool :=
  match node.data.isEnabled with
  | none => false
  | some b => b

/-- `is_default_action` (lines 67-72): no exception handler; a raising
legacy-pattern query propagates to the caller. -/
def is_default_action (node : Ctrl) : Except Unit Bool :=
  match node.data.defaultAction with
  | none => Except.error ()
  | some a => Except.ok (decide (pytitle a ∈ DEFAULT_ACTIONS))

/-- `is_element_image` (lines 74-78): no exception handler; when the node
is an image control whose localized type is not the generic graphic label,
a raising `IsKeyboardFocusable` query propagates to the caller. -/
def is_element_image (node : Ctrl) : Except Unit Bool :=
  if node.data.isImageControl then
    if node.data.localizedControlType = "graphic" then Except.ok true
    else
      match node.data.isKeyboardFocusable with
      | none => Except.error ()
      | some b => Except.ok (!b)
  else Except.ok false

/-- `is_keyboard_focusable` (lines 96-102): fixed allow-list first, then
the platform flag; a raising query is caught and collapsed to `false`. -/
def is_keyboard_focusable (node : Ctrl) : Bool :=
  if node.data.controlTypeName ∈
      (["EditControl", "ButtonControl", "CheckBoxControl", "RadioButtonControl",
        "TabItemControl"] : List String) then true
  else
    match node.data.isKeyboardFocusable with
    | none => false
    | some b => b

/-- The body of the `try` of `is_element_text` (lines 80-87). -/
def is_element_text_body (node : Ctrl) : Except Unit Bool :=
  if node.data.controlTypeName ∈ INFORMATIVE_CONTROL_TYPE_NAMES then
    if is_element_visible node 0 && is_element_enabled node then do
      let img ← is_element_image node
      pure (!img)
    else pure false
  else pure false

/-- `is_element_text`: any exception inside the body is caught and
collapsed to `false`. -/
def is_element_text (node : Ctrl) : Bool :=
  match is_element_text_body node with
  | Except.ok b => b
  | Except.error _ => false

/-- `is_element_scrollable` (lines 89-94): a missing scroll pattern raises
and is caught, collapsing to `false`.  Note that this classifier never
consults the bounding box. -/
def is_element_scrollable (node : Ctrl) : Bool :=
  match node.data.scrollPattern with
  | none => false
  | some sp => sp.verticallyScrollable || sp.horizontallyScrollable

/-- `element_has_child_element` (lines 104-109): on a localized-type
mismatch the Python function returns `None`, which is falsy at both call
sites, so it is modelled as `false`. -/
def element_has_child_element (node : Ctrl) (control_type child_control_type : String) : Bool :=
  if node.data.localizedControlType = control_type then
    match node.firstChild with
    | none => false
    | some fc => decide (fc.data.localizedControlType = child_control_type)
  else false

/-- `group_has_no_name` (lines 111-118). -/
def group_has_no_name (node : Ctrl) : Bool :=
  if node.data.controlTypeName = "GroupControl" then decide (pystrip node.data.name = "")
  else false

/-- The body of the `try` of `is_element_interactive` (lines 120-133),
with Python's left-to-right short-circuit evaluation made explicit so that
a propagating sub-query is only reached when the conjuncts before it hold. -/
def is_element_interactive_body (is_browser : Bool) (node : Ctrl) : Except Unit Bool :=
  if node.data.controlTypeName ∈ INTERACTIVE_CONTROL_TYPE_NAMES then
    if is_element_visible node 0 && is_element_enabled node then do
      let img ← is_element_image node
      if !img && is_keyboard_focusable node then pure true else pure false
    else pure false
  else if decide (node.data.controlTypeName = "GroupControl") && is_browser then
    if is_element_visible node 0 && is_element_enabled node then do
      let da ← is_default_action node
      if da || is_keyboard_focusable node then pure true else pure false
    else pure false
  else if decide (node.data.controlTypeName = "GroupControl") && !is_browser then
    if is_element_visible node 0 && is_element_enabled node then do
      let da ← is_default_action node
      pure da
    else pure false
  else pure false

/-- `is_element_interactive`: any exception inside the body is caught and
collapsed to `false`. -/
def is_element_interactive (is_browser : Bool) (node : Ctrl) : Bool :=
  match is_element_interactive_body is_browser node with
  | Except.ok b => b
  | Except.error _ => false

/-- The mutable traversal state of one `get_nodes` call: the three node
lists plus the index of the next random draw. -/
structure TState where
  interactive_nodes : List TreeElementNode
  informative_nodes : List TextElementNode
  scrollable_nodes : List ScrollElementNode
  rnd : Nat
deriving DecidableEq, Repr

/-- Python `list.pop()`: raises `IndexError` on an empty list, otherwise
removes and discards the last element. -/
def pop_last {α : Type} (l : List α) : Except Unit (List α) :=
  if l.isEmpty then Except.error () else Except.ok l.dropLast

/-- The `while child.GetFirstChildControl() is not None` loop of
`dom_correction`: descend the first-child chain to its deepest node. -/
def deepest_first_child : Ctrl → Ctrl
  | .mk d [] => .mk d []
  | .mk _ (c :: _) => deepest_first_child c

def mkBoundingBox (box : Rect) : BoundingBox :=
  { left := box.left, top := box.top, right := box.right, bottom := box.bottom,
    width := box.width, height := box.height }

/-- `dom_correction` (lines 135-176), operating on the traversal state
whose last interactive entry is the node just appended.  The unreachable
`Except.error` arms model the `IndexError` of `pop()` on an empty list and
the attribute error of reading a missing first child. -/
def dom_correction (app_name : String) (node : Ctrl) (s : TState) : Except Unit TState :=
  if element_has_child_element node ("list item") ("link")
      || element_has_child_element node ("item") ("link") then do
    let i ← pop_last s.interactive_nodes
    pure { s with interactive_nodes := i }
  else if group_has_no_name node then do
    let i ← pop_last s.interactive_nodes
    let s1 := { s with interactive_nodes := i }
    if is_keyboard_focusable node then
      let child := deepest_first_child node
      if child.data.controlTypeName ≠ "TextControl" then pure s1
      else
        let box := node.data.boundingRectangle
        let n : TreeElementNode :=
          { name := stripOrSentinel child.data.name
            control_type := "Edit"
            shortcut := orSentinel node.data.acceleratorKey
            bounding_box := mkBoundingBox box
            center := { x := box.xcenter, y := box.ycenter }
            app_name := app_name }
        pure { s1 with interactive_nodes := s1.interactive_nodes ++ [n] }
    else pure s1
  else if element_has_child_element node ("link") ("heading") then do
    let i ← pop_last s.interactive_nodes
    match node.firstChild with
    | none => Except.error ()
    | some ch =>
      let box := ch.data.boundingRectangle
      let n : TreeElementNode :=
        { name := stripOrSentinel ch.data.name
          control_type := "link"
          shortcut := orSentinel ch.data.acceleratorKey
          bounding_box := mkBoundingBox box
          center := { x := box.xcenter, y := box.ycenter }
          app_name := app_name }
      pure { s with interactive_nodes := i ++ [n] }
  else pure s

/-- The per-node classification step of `tree_traversal` (lines 179-212):
interactive, then text, then scrollable, first match wins; an interactive
match in a browser is immediately followed by the DOM-correction pass. -/
def classify_node (is_browser : Bool) (app_name : String) (rng : Nat → Int × Int)
    (node : Ctrl) (s : TState) : Except Unit TState :=
  if is_element_interactive is_browser node then
    let box := node.data.boundingRectangle
    let p := random_point_within_bounding_box box 1 2 (rng s.rnd).1 (rng s.rnd).2
    let n : TreeElementNode :=
      { name := stripOrSentinel node.data.name
        control_type := pytitle node.data.localizedControlType
        shortcut := orSentinel node.data.acceleratorKey
        bounding_box := mkBoundingBox box
        center := { x := p.1, y := p.2 }
        app_name := app_name }
    let s1 : TState :=
      { s with interactive_nodes := s.interactive_nodes ++ [n], rnd := s.rnd + 1 }
    if is_browser then dom_correction app_name node s1 else pure s1
  else if is_element_text node then
    let n : TextElementNode := { name := stripOrSentinel node.data.name, app_name := app_name }
    pure { s with informative_nodes := s.informative_nodes ++ [n] }
  else if is_element_scrollable node then
    match node.data.scrollPattern with
    | none => Except.error ()
    | some sp =>
      let box := node.data.boundingRectangle
      let p := random_point_within_bounding_box box 4 5 (rng s.rnd).1 (rng s.rnd).2
      let n : ScrollElementNode :=
        { name := scrollName node.data.name node.data.localizedControlType
          app_name := app_name
          control_type := pytitle node.data.localizedControlType
          bounding_box := mkBoundingBox box
          center := { x := p.1, y := p.2 }
          horizontal_scrollable := sp.horizontallyScrollable
          vertical_scrollable := sp.verticallyScrollable }
      pure { s with scrollable_nodes := s.scrollable_nodes ++ [n], rnd := s.rnd + 1 }
  else pure s

/-- The pruning rule of the recursion (line 215): an off-screen child is
skipped unless it is an editable field or a transient popup. -/
def keep_child (c : Ctrl) : Bool :=
  !(c.data.isOffscreen && decide (c.data.controlTypeName ≠ "EditControl")
      && decide (c.data.className ≠ "Popup"))

mutual

/-- `tree_traversal` (lines 178-217): classify the node, then recurse into
its children; a raising `GetChildren` propagates out of the traversal. -/
def tree_traversal (is_browser : Bool) (app_name : String) (rng : Nat → Int × Int)
    (node : Ctrl) (s : TState) : Except Unit TState :=
  match classify_node is_browser app_name rng node s with
  | Except.error e => Except.error e
  | Except.ok s1 =>
    match node with
    | .mk d cs =>
      if d.childrenRaise then Except.error ()
      else traverse_children is_browser app_name rng cs s1

/-- The `for child in node.GetChildren()` loop of `tree_traversal`. -/
def traverse_children (is_browser : Bool) (app_name : String) (rng : Nat → Int × Int)
    (cs : List Ctrl) (s : TState) : Except Unit TState :=
  match cs with
  | [] => Except.ok s
  | c :: rest =>
    if keep_child c then
      match tree_traversal is_browser app_name rng c s with
      | Except.error e => Except.error e
      | Except.ok s1 => traverse_children is_browser app_name rng rest s1
    else traverse_children is_browser app_name rng rest s

end

/-- The application-name computation at the top of `get_nodes` (lines
47-48): the stripped window name, or `Desktop` for the Progman window. -/
def app_name_of (node : Ctrl) : String :=
  if node.data.className = "Progman" then "Desktop" else pystrip node.data.name

/-- `Tree.get_nodes` (lines 45-219): derive the application name, run the
traversal from an empty state, and return the three lists. -/
def get_nodes (node : Ctrl) (is_browser : Bool) (rng : Nat → Int × Int) :
    Except Unit (List TreeElementNode × List TextElementNode × List ScrollElementNode) :=
  match tree_traversal is_browser (app_name_of node) rng node
      { interactive_nodes := [], informative_nodes := [], scrollable_nodes := [], rnd := 0 } with
  | Except.error e => Except.error e
  | Except.ok s => Except.ok (s.interactive_nodes, s.informative_nodes, s.scrollable_nodes)

/-- One top-level application as seen by the orchestrator: its control
plus the two signals supplied by the desktop collaborator. -/
structure AppEntry where
  ctrl : Ctrl
  is_visible : Bool
  is_browser : Bool

/-- `Tree.get_appwise_nodes` (lines 26-43): filter to visible,
non-avoided applications, run the per-application traversal on each,
merge the successful results and record the name of each failing
application in the log (the worker-pool completion order is modelled as
the submission order).  The call itself always returns. -/
def get_appwise_nodes (apps : List AppEntry) (rng : Nat → Int × Int) :
    (List TreeElementNode × List TextElementNode × List ScrollElementNode) × List String :=
  let visible_apps := apps.filter
    (fun a => a.is_visible && decide (a.ctrl.data.name ∉ AVOIDED_APPS))
  visible_apps.foldl
    (fun acc a =>
      match get_nodes a.ctrl a.is_browser rng with
      | Except.ok (i, t, sc) => ((acc.1.1 ++ i, acc.1.2.1 ++ t, acc.1.2.2 ++ sc), acc.2)
      | Except.error _ => (acc.1, acc.2 ++ [a.ctrl.data.name]))
    (([], [], []), [])

/-- `Tree.get_state` (lines 19-24): one full snapshot. -/
def get_state (apps : List AppEntry) (rng : Nat → Int × Int) : TreeState :=
  let r := (get_appwise_nodes apps rng).1
  { interactive_nodes := r.1, informative_nodes := r.2.1, scrollable_nodes := r.2.2 }

/-- One hexadecimal digit, lowercase. -/
def hexDigitChar (n : Nat) : Char :=
  if n < 10 then Char.ofNat (48 + n) else Char.ofNat (87 + n)

/-- Python format string `"\x7b:06x\x7d"`: six lowercase hexadecimal
digits. -/
def toHex6 (n : Nat) : String :=
  ⟨[hexDigitChar (n / 1048576 % 16), hexDigitChar (n / 65536 % 16),
    hexDigitChar (n / 4096 % 16), hexDigitChar (n / 256 % 16),
    hexDigitChar (n / 16 % 16), hexDigitChar (n % 16)]⟩

/-- `get_random_color` (lines 241-242): a random draw in
`[0, 0xFFFFFF]` formatted as `#` plus six hex digits.  The model takes the
draw as an argument. -/
def get_random_color (r : Nat) : String := "#" ++ toHex6 (r % 16777216)

/-- One annotated rectangle of the rendered screenshot: the scaled and
padded bounding box, its outline color, and the index label drawn at the
box's top-right corner. -/
structure DrawCmd where
  box_left : Int
  box_top : Int
  box_right : Int
  box_bottom : Int
  color : String
  label_text : String
  label_x1 : Int
  label_y1 : Int
  label_x2 : Int
  label_y2 : Int
deriving DecidableEq, Repr

/-- `draw_annotation` inside `Tree.annotated_screenshot` (lines 244-271),
reduced to the geometry it draws.  The scale factor is the rational
`sn / sd`; Python `int()` truncates toward zero, which is `Int.tdiv`;
`padding` is fixed at 20 and `font_size` at 12 as in the source; the font
metric `draw.textlength` is modelled by the function `textlen`. -/
def draw_labelled_box (sn sd : Int) (textlen : String → Int) (color_rng : Nat → Nat)
    (label : Nat) (node : TreeElementNode) : DrawCmd :=
  let padding : Int := 20
  let font_size : Int := 12
  let box := node.bounding_box
  let color := get_random_color (color_rng label)
  let l := Int.tdiv (box.left * sn) sd + padding
  let t := Int.tdiv (box.top * sn) sd + padding
  let r := Int.tdiv (box.right * sn) sd + padding
  let b := Int.tdiv (box.bottom * sn) sd + padding
  let label_width := textlen (toString label)
  let label_x1 := r - label_width
  let label_y1 := t - font_size - 4
  { box_left := l
    box_top := t
    box_right := r
    box_bottom := b
    color := color
    label_text := toString label
    label_x1 := label_x1
    label_y1 := label_y1
    label_x2 := label_x1 + label_width
    label_y2 := label_y1 + font_size + 4 }

/-- `Tree.annotated_screenshot` (lines 224-276) reduced to the sequence of
draw commands it issues: one command per node, labelled by the node's
position in the input list (`executor.map` pairs `range(len(nodes))` with
`nodes` in order). -/
def annotated_screenshot (nodes : List TreeElementNode) (sn sd : Int)
    (textlen : String → Int) (color_rng : Nat → Nat) : List DrawCmd :=
  ((List.range nodes.length).zip nodes).map
    (fun p => draw_labelled_box sn sd textlen color_rng p.1 p.2)

/-- A fixed random stream: every draw is the midpoint of the allowed
range. -/
def rngHalf : Nat → Int × Int := fun _ => (500, 500)

/-- A plain visible push button. -/
def demoButton : Ctrl :=
  Ctrl.mk
    { name := "OK"
      className := "Button"
      controlTypeName := "ButtonControl"
      localizedControlType := "button"
      acceleratorKey := ""
      boundingRectangle := { left := 0, top := 0, right := 10, bottom := 10 }
      isControlElement := true
      isOffscreen := false
      isImageControl := false
      isEnabled := some true
      isKeyboardFocusable := some true
      defaultAction := some "press"
      scrollPattern := none
      childrenRaise := false } []

/-- The interactive entry that `demoButton` produces under `rngHalf`. -/
def demoButtonNode : TreeElementNode :=
  { name := "OK"
    control_type := "Button"
    shortcut := emptySentinel
    bounding_box := { left := 0, top := 0, right := 10, bottom := 10, width := 10, height := 10 }
    center := { x := 5, y := 5 }
    app_name := "OK" }

/-! ### Helper lemmas -/

theorem pop_last_concat {α : Type} (l : List α) (a : α) :
    pop_last (l ++ [a]) = Except.ok l := by
  simp [pop_last]

theorem pop_last_singleton {α : Type} (a : α) : pop_last [a] = Except.ok [] := by
  simp [pop_last]

theorem element_has_child_element_some {node : Ctrl} {a b : String}
    (h : element_has_child_element node a b = true) :
    node.data.localizedControlType = a ∧
      ∃ fc, node.firstChild = some fc ∧ fc.data.localizedControlType = b := by
  unfold element_has_child_element at h
  split at h
  · refine ⟨by assumption, ?_⟩
    rcases hfc : node.firstChild with _ | fc
    · rw [hfc] at h
      simp at h
    · rw [hfc] at h
      simp at h
      exact ⟨fc, rfl, h⟩
  · simp at h

theorem is_element_scrollable_some {node : Ctrl}
    (h : is_element_scrollable node = true) :
    ∃ sp, node.data.scrollPattern = some sp ∧
      (sp.horizontallyScrollable = true ∨ sp.verticallyScrollable = true) := by
  unfold is_element_scrollable at h
  rcases hsp : node.data.scrollPattern with _ | sp
  · rw [hsp] at h
    simp at h
  · rw [hsp] at h
    simp at h
    exact ⟨sp, rfl, Or.symm h⟩

theorem dom_correction_spec (app_name : String) (node : Ctrl)
    (pre : List TreeElementNode) (n : TreeElementNode)
    (ti : List TextElementNode) (sc : List ScrollElementNode) (r : Nat) :
    ∃ i', dom_correction app_name node ⟨pre ++ [n], ti, sc, r⟩ = Except.ok ⟨i', ti, sc, r⟩ ∧
      (i' = pre ++ [n] ∨ i' = pre ∨ ∃ m, i' = pre ++ [m]) := by
  unfold dom_correction
  by_cases h1 : (element_has_child_element node ("list item") ("link")
      || element_has_child_element node ("item") ("link")) = true
  · refine ⟨pre, ?_, Or.inr (Or.inl rfl)⟩
    simp [h1, pop_last_concat, Bind.bind, Except.bind, pure, Except.pure]
  · by_cases h2 : group_has_no_name node = true
    · by_cases h3 : is_keyboard_focusable node = true
      · by_cases h4 : (deepest_first_child node).data.controlTypeName = "TextControl"
        · simp [h1, h2, h3, h4, pop_last_concat, Bind.bind, Except.bind, pure, Except.pure]
        · refine ⟨pre, ?_, Or.inr (Or.inl rfl)⟩
          simp [h1, h2, h3, h4, pop_last_concat, Bind.bind, Except.bind, pure, Except.pure]
      · refine ⟨pre, ?_, Or.inr (Or.inl rfl)⟩
        simp [h1, h2, h3, pop_last_concat, Bind.bind, Except.bind, pure, Except.pure]
    · by_cases h5 : element_has_child_element node ("link") ("heading") = true
      · obtain ⟨-, fc, hfc, -⟩ := element_has_child_element_some h5
        simp [h1, h2, h5, hfc, pop_last_concat, Bind.bind, Except.bind, pure, Except.pure]
      · refine ⟨pre ++ [n], ?_, Or.inl rfl⟩
        simp [h1, h2, h5, pure, Except.pure]

/-- The interactive entry appended by `tree_traversal` for a node, before
any DOM correction. -/
def interactiveNodeOf (app_name : String) (rng : Nat → Int × Int) (node : Ctrl) (r : Nat) :
    TreeElementNode :=
  let box := node.data.boundingRectangle
  let p := random_point_within_bounding_box box 1 2 (rng r).1 (rng r).2
  { name := stripOrSentinel node.data.name
    control_type := pytitle node.data.localizedControlType
    shortcut := orSentinel node.data.acceleratorKey
    bounding_box := mkBoundingBox box
    center := { x := p.1, y := p.2 }
    app_name := app_name }

/-- The informative entry appended by `tree_traversal` for a text node. -/
def textNodeOf (app_name : String) (node : Ctrl) : TextElementNode :=
  { name := stripOrSentinel node.data.name, app_name := app_name }

/-- The scrollable entry appended by `tree_traversal` for a scrollable
node. -/
def scrollNodeOf (app_name : String) (rng : Nat → Int × Int) (node : Ctrl) (sp : ScrollPat)
    (r : Nat) : ScrollElementNode :=
  let box := node.data.boundingRectangle
  let p := random_point_within_bounding_box box 4 5 (rng r).1 (rng r).2
  { name := scrollName node.data.name node.data.localizedControlType
    app_name := app_name
    control_type := pytitle node.data.localizedControlType
    bounding_box := mkBoundingBox box
    center := { x := p.1, y := p.2 }
    horizontal_scrollable := sp.horizontallyScrollable
    vertical_scrollable := sp.verticallyScrollable }

theorem classify_node_interactive_native (app : String) (rng : Nat → Int × Int) (node : Ctrl)
    (i : List TreeElementNode) (ti : List TextElementNode) (sc : List ScrollElementNode) (r : Nat)
    (hi : is_element_interactive false node = true) :
    classify_node false app rng node ⟨i, ti, sc, r⟩ =
      Except.ok ⟨i ++ [interactiveNodeOf app rng node r], ti, sc, r + 1⟩ := by
  simp [classify_node, hi, interactiveNodeOf, pure, Except.pure]

theorem classify_node_interactive_browser (app : String) (rng : Nat → Int × Int) (node : Ctrl)
    (i : List TreeElementNode) (ti : List TextElementNode) (sc : List ScrollElementNode) (r : Nat)
    (hi : is_element_interactive true node = true) :
    classify_node true app rng node ⟨i, ti, sc, r⟩ =
      dom_correction app node ⟨i ++ [interactiveNodeOf app rng node r], ti, sc, r + 1⟩ := by
  simp [classify_node, hi, interactiveNodeOf]

theorem classify_node_text (b : Bool) (app : String) (rng : Nat → Int × Int) (node : Ctrl)
    (i : List TreeElementNode) (ti : List TextElementNode) (sc : List ScrollElementNode) (r : Nat)
    (hi : is_element_interactive b node = false) (ht : is_element_text node = true) :
    classify_node b app rng node ⟨i, ti, sc, r⟩ =
      Except.ok ⟨i, ti ++ [textNodeOf app node], sc, r⟩ := by
  simp [classify_node, hi, ht, textNodeOf, pure, Except.pure]

theorem classify_node_scroll (b : Bool) (app : String) (rng : Nat → Int × Int) (node : Ctrl)
    (i : List TreeElementNode) (ti : List TextElementNode) (sc : List ScrollElementNode) (r : Nat)
    (hi : is_element_interactive b node = false) (ht : is_element_text node = false)
    (hs : is_element_scrollable node = true)
    (sp : ScrollPat) (hsp : node.data.scrollPattern = some sp) :
    classify_node b app rng node ⟨i, ti, sc, r⟩ =
      Except.ok ⟨i, ti, sc ++ [scrollNodeOf app rng node sp r], r + 1⟩ := by
  simp [classify_node, hi, ht, hs, hsp, scrollNodeOf, pure, Except.pure]

theorem classify_node_skip (b : Bool) (app : String) (rng : Nat → Int × Int) (node : Ctrl)
    (i : List TreeElementNode) (ti : List TextElementNode) (sc : List ScrollElementNode) (r : Nat)
    (hi : is_element_interactive b node = false) (ht : is_element_text node = false)
    (hs : is_element_scrollable node = false) :
    classify_node b app rng node ⟨i, ti, sc, r⟩ = Except.ok ⟨i, ti, sc, r⟩ := by
  simp [classify_node, hi, ht, hs, pure, Except.pure]

/-- The classification of a single node never propagates an exception. -/
theorem classify_node_total (b : Bool) (app : String) (rng : Nat → Int × Int) (node : Ctrl)
    (s : TState) : ∃ s', classify_node b app rng node s = Except.ok s' := by
  obtain ⟨i, ti, sc, r⟩ := s
  by_cases hi : is_element_interactive b node = true
  · cases b with
    | false => exact ⟨_, classify_node_interactive_native app rng node i ti sc r hi⟩
    | true =>
      rw [classify_node_interactive_browser app rng node i ti sc r hi]
      obtain ⟨i', h, -⟩ := dom_correction_spec app node i (interactiveNodeOf app rng node r) ti sc (r + 1)
      exact ⟨_, h⟩
  · rw [Bool.not_eq_true] at hi
    by_cases ht : is_element_text node = true
    · exact ⟨_, classify_node_text b app rng node i ti sc r hi ht⟩
    · rw [Bool.not_eq_true] at ht
      by_cases hs : is_element_scrollable node = true
      · obtain ⟨sp, hsp, -⟩ := is_element_scrollable_some hs
        exact ⟨_, classify_node_scroll b app rng node i ti sc r hi ht hs sp hsp⟩
      · rw [Bool.not_eq_true] at hs
        exact ⟨_, classify_node_skip b app rng node i ti sc r hi ht hs⟩

mutual

theorem tree_traversal_preserves (P : TState → Prop) (b : Bool) (app : String)
    (rng : Nat → Int × Int)
    (hstep : ∀ node s s', classify_node b app rng node s = Except.ok s' → P s → P s')
    (node : Ctrl) (s s' : TState)
    (h : tree_traversal b app rng node s = Except.ok s') (hs : P s) : P s' :=
  match node with
  | .mk d cs => by
    unfold tree_traversal at h
    rcases hc : classify_node b app rng (Ctrl.mk d cs) s with e | s1
    · rw [hc] at h
      exact absurd h (by simp)
    · rw [hc] at h
      dsimp only at h
      by_cases hr : d.childrenRaise
      · rw [if_pos hr] at h
        exact absurd h (by simp)
      · rw [if_neg hr] at h
        exact traverse_children_preserves P b app rng hstep cs s1 s' h (hstep _ _ _ hc hs)

theorem traverse_children_preserves (P : TState → Prop) (b : Bool) (app : String)
    (rng : Nat → Int × Int)
    (hstep : ∀ node s s', classify_node b app rng node s = Except.ok s' → P s → P s')
    (cs : List Ctrl) (s s' : TState)
    (h : traverse_children b app rng cs s = Except.ok s') (hs : P s) : P s' :=
  match cs with
  | [] => by
    unfold traverse_children at h
    simp only [Except.ok.injEq] at h
    rwa [← h]
  | c :: rest => by
    unfold traverse_children at h
    by_cases hk : keep_child c
    · rw [if_pos hk] at h
      rcases ht : tree_traversal b app rng c s with e | s1
      · rw [ht] at h
        exact absurd h (by simp)
      · rw [ht] at h
        exact traverse_children_preserves P b app rng hstep rest s1 s' h
          (tree_traversal_preserves P b app rng hstep c s s1 ht hs)
    · rw [if_neg hk] at h
      exact traverse_children_preserves P b app rng hstep rest s s' h hs

end

theorem get_nodes_inv (node : Ctrl) (b : Bool) (rng : Nat → Int × Int)
    (res : List TreeElementNode × List TextElementNode × List ScrollElementNode)
    (h : get_nodes node b rng = Except.ok res) :
    ∃ s', tree_traversal b (app_name_of node) rng node ⟨[], [], [], 0⟩ = Except.ok s' ∧
      res = (s'.interactive_nodes, s'.informative_nodes, s'.scrollable_nodes) := by
  unfold get_nodes at h
  rcases ht : tree_traversal b (app_name_of node) rng node ⟨[], [], [], 0⟩ with e | s1
  · rw [ht] at h
    exact absurd h (by simp)
  · rw [ht] at h
    simp only [Except.ok.injEq] at h
    exact ⟨s1, rfl, h.symm⟩

/-- The step preservation fact behind the scroll-flag invariant: one node's
classification only adds scrollable entries with at least one flag set. -/
theorem classify_scroll_flags_step (b : Bool) (app : String) (rng : Nat → Int × Int)
    (node : Ctrl) (s s' : TState)
    (hc : classify_node b app rng node s = Except.ok s')
    (hs : ∀ n ∈ s.scrollable_nodes, n.horizontal_scrollable = true ∨ n.vertical_scrollable = true) :
    ∀ n ∈ s'.scrollable_nodes, n.horizontal_scrollable = true ∨ n.vertical_scrollable = true := by
  obtain ⟨i, ti, sc, r⟩ := s
  by_cases hi : is_element_interactive b node = true
  · cases b with
    | false =>
      rw [classify_node_interactive_native app rng node i ti sc r hi] at hc
      simp only [Except.ok.injEq] at hc
      rw [← hc]
      exact hs
    | true =>
      rw [classify_node_interactive_browser app rng node i ti sc r hi] at hc
      obtain ⟨i', hdc, -⟩ :=
        dom_correction_spec app node i (interactiveNodeOf app rng node r) ti sc (r + 1)
      rw [hdc] at hc
      simp only [Except.ok.injEq] at hc
      rw [← hc]
      exact hs
  · rw [Bool.not_eq_true] at hi
    by_cases ht : is_element_text node = true
    · rw [classify_node_text b app rng node i ti sc r hi ht] at hc
      simp only [Except.ok.injEq] at hc
      rw [← hc]
      exact hs
    · rw [Bool.not_eq_true] at ht
      by_cases hsc : is_element_scrollable node = true
      · obtain ⟨sp, hsp, hflag⟩ := is_element_scrollable_some hsc
        rw [classify_node_scroll b app rng node i ti sc r hi ht hsc sp hsp] at hc
        simp only [Except.ok.injEq] at hc
        rw [← hc]
        intro n hn
        rcases List.mem_append.mp hn with hn | hn
        · exact hs n hn
        · simp only [List.mem_singleton] at hn
          rw [hn]
          exact hflag
      · rw [Bool.not_eq_true] at hsc
        rw [classify_node_skip b app rng node i ti sc r hi ht hsc] at hc
        simp only [Except.ok.injEq] at hc
        rw [← hc]
        exact hs

/-! ### Concrete controls used as witnesses and counterexamples -/

/-- A neutral pane control: not interactive, not text, not scrollable. -/
def baseData : CtrlData :=
  { name := ""
    className := ""
    controlTypeName := "PaneControl"
    localizedControlType := "pane"
    acceleratorKey := ""
    boundingRectangle := { left := 0, top := 0, right := 100, bottom := 100 }
    isControlElement := true
    isOffscreen := false
    isImageControl := false
    isEnabled := some true
    isKeyboardFocusable := some false
    defaultAction := some ""
    scrollPattern := none
    childrenRaise := false }

/-- An application whose `GetChildren` raises mid-scan. -/
def failApp : Ctrl := Ctrl.mk { baseData with name := "Broken", childrenRaise := true } []

/-- A pane with an empty bounding box (`width = 0`, `height = 0`) whose
scroll pattern reports vertical scrollability. -/
def emptyScrollCtrl : Ctrl :=
  Ctrl.mk { baseData with
    name := "Corner"
    boundingRectangle := { left := 5, top := 5, right := 5, bottom := 5 }
    scrollPattern := some { verticallyScrollable := true, horizontallyScrollable := false } } []

/-- A scrollable pane with a normal box. -/
def demoScrollPane : Ctrl :=
  Ctrl.mk { baseData with
    name := "Files"
    scrollPattern := some { verticallyScrollable := true, horizontallyScrollable := false } } []

/-- The scrollable entry that `demoScrollPane` produces. -/
def demoScrollNode : ScrollElementNode :=
  { name := "Files"
    app_name := "Files"
    control_type := "Pane"
    bounding_box := { left := 0, top := 0, right := 100, bottom := 100, width := 100, height := 100 }
    center := { x := 50, y := 50 }
    horizontal_scrollable := false
    vertical_scrollable := true }

/-- A visible, enabled generic group whose legacy default-action query
raises. -/
def groupNoAction : Ctrl :=
  Ctrl.mk { baseData with
    name := "Blob"
    controlTypeName := "GroupControl"
    localizedControlType := "group"
    defaultAction := none
    isKeyboardFocusable := some true } []

/-- A visible, enabled image-typed text control whose keyboard-focusable
query raises. -/
def imageNoKF : Ctrl :=
  Ctrl.mk { baseData with
    name := "Pic"
    controlTypeName := "TextControl"
    localizedControlType := "text"
    isImageControl := true
    isKeyboardFocusable := none } []

/-- A control on which the enabled and scroll-pattern queries raise. -/
def noQueryCtrl : Ctrl :=
  Ctrl.mk { baseData with name := "Numb", isEnabled := none, scrollPattern := none } []

/-! ### C8 -/

/-- C8: every `ScrollElementNode` emitted by one traversal call has at
least one of its two scroll flags set, because the emission copies the
flags of the scroll pattern that just satisfied the scrollable
classifier. -/
theorem c8_scroll_flags (node : Ctrl) (b : Bool) (rng : Nat → Int × Int)
    (i : List TreeElementNode) (t : List TextElementNode) (sc : List ScrollElementNode)
    (h : get_nodes node b rng = Except.ok (i, t, sc)) :
    ∀ n ∈ sc, n.horizontal_scrollable = true ∨ n.vertical_scrollable = true := by
  obtain ⟨s', hts, heq⟩ := get_nodes_inv node b rng (i, t, sc) h
  have hfin := tree_traversal_preserves
    (fun s => ∀ n ∈ s.scrollable_nodes,
      n.horizontal_scrollable = true ∨ n.vertical_scrollable = true)
    b (app_name_of node) rng
    (fun nd s s' hc hs => classify_scroll_flags_step b (app_name_of node) rng nd s s' hc hs)
    node _ s' hts (by intro n hn; simp at hn)
  have hsc : sc = s'.scrollable_nodes := congrArg (fun p => p.2.2) heq
  rw [hsc]
  exact hfin

theorem c8_scroll_flags_witness :
    demoScrollNode.horizontal_scrollable = true ∨ demoScrollNode.vertical_scrollable = true :=
  c8_scroll_flags demoScrollPane false rngHalf [] [] [demoScrollNode] (by decide)
    demoScrollNode (by decide)

/-! ### C3 -/

/-- C3: when one application's traversal raises and another succeeds, the
orchestrator returns normally, logs the failing application's name, and
the snapshot contains exactly the successful application's nodes. -/
theorem c3_per_app_failure_isolated (a b : AppEntry) (rng : Nat → Int × Int)
    (i : List TreeElementNode) (t : List TextElementNode) (sc : List ScrollElementNode)
    (ha : get_nodes a.ctrl a.is_browser rng = Except.error ())
    (hb : get_nodes b.ctrl b.is_browser rng = Except.ok (i, t, sc))
    (hav : a.is_visible = true) (han : a.ctrl.data.name ∉ AVOIDED_APPS)
    (hbv : b.is_visible = true) (hbn : b.ctrl.data.name ∉ AVOIDED_APPS) :
    get_appwise_nodes [a, b] rng = ((i, t, sc), [a.ctrl.data.name]) ∧
      get_state [a, b] rng =
        { interactive_nodes := i, informative_nodes := t, scrollable_nodes := sc } := by
  have h1 : get_appwise_nodes [a, b] rng = ((i, t, sc), [a.ctrl.data.name]) := by
    unfold get_appwise_nodes
    simp [List.filter, hav, han, hbv, hbn, ha, hb]
  refine ⟨h1, ?_⟩
  unfold get_state
  rw [h1]

theorem c3_per_app_failure_isolated_witness :
    get_appwise_nodes [⟨failApp, true, false⟩, ⟨demoButton, true, false⟩] rngHalf =
        (([demoButtonNode], [], []), ["Broken"]) ∧
      get_state [⟨failApp, true, false⟩, ⟨demoButton, true, false⟩] rngHalf =
        { interactive_nodes := [demoButtonNode], informative_nodes := [],
          scrollable_nodes := [] } :=
  c3_per_app_failure_isolated ⟨failApp, true, false⟩ ⟨demoButton, true, false⟩ rngHalf
    [demoButtonNode] [] [] (by decide) (by decide) rfl (by decide) rfl (by decide)

/-! ### C10 -/

/-- C10: the DOM-correction pass always runs on a state whose interactive
list is the previous list with the just-appended entry at its end; the
pass never raises, removes or replaces only that last entry, and leaves
the informative and scrollable lists (and the random counter) unchanged. -/
theorem c10_dom_correction_frame :
    (∀ (app : String) (rng : Nat → Int × Int) (node : Ctrl) (i : List TreeElementNode)
        (ti : List TextElementNode) (sc : List ScrollElementNode) (r : Nat),
      is_element_interactive true node = true →
        classify_node true app rng node ⟨i, ti, sc, r⟩ =
          dom_correction app node ⟨i ++ [interactiveNodeOf app rng node r], ti, sc, r + 1⟩) ∧
    (∀ (app : String) (node : Ctrl) (pre : List TreeElementNode) (n : TreeElementNode)
        (ti : List TextElementNode) (sc : List ScrollElementNode) (r : Nat),
      ∃ i', dom_correction app node ⟨pre ++ [n], ti, sc, r⟩ = Except.ok ⟨i', ti, sc, r⟩ ∧
        (i' = pre ++ [n] ∨ i' = pre ∨ ∃ m, i' = pre ++ [m])) := by
  constructor
  · intro app rng node i ti sc r hi
    exact classify_node_interactive_browser app rng node i ti sc r hi
  · intro app node pre n ti sc r
    exact dom_correction_spec app node pre n ti sc r

theorem c10_dom_correction_frame_witness :
    (classify_node true ("Pad") rngHalf demoButton ⟨[], [], [], 0⟩ =
      dom_correction ("Pad") demoButton
        ⟨[] ++ [interactiveNodeOf ("Pad") rngHalf demoButton 0], [], [], 1⟩) ∧
    ∃ i', dom_correction ("Pad") demoButton
        ⟨[] ++ [interactiveNodeOf ("Pad") rngHalf demoButton 0], [], [], 0⟩ =
          Except.ok ⟨i', [], [], 0⟩ ∧
      (i' = [] ++ [interactiveNodeOf ("Pad") rngHalf demoButton 0] ∨ i' = [] ∨
        ∃ m, i' = [] ++ [m]) :=
  ⟨c10_dom_correction_frame.1 ("Pad") rngHalf demoButton [] [] [] 0 (by decide),
    c10_dom_correction_frame.2 ("Pad") demoButton []
      (interactiveNodeOf ("Pad") rngHalf demoButton 0) [] [] 0⟩

/-! ### C2 -/

/-- C2 counterexample: the `has-default-action` predicate contains no
exception handler, so on a control whose legacy-pattern query raises, the
predicate call propagates the exception to its caller instead of
collapsing to false. -/
theorem c2_counterexample : is_default_action groupNoAction = Except.error () := by decide

/-- C2 amended: the enabled, keyboard-focusable, interactive, text and
scrollable predicates catch query failures and collapse to `false`;
has-default-action and image-like contain no handler and propagate a query
failure to their caller; every call to them occurs inside the handler of
the interactive or text classifier, so no exception escapes the
classification of a node. -/
theorem c2_amended :
    (∀ (b : Bool) (app : String) (rng : Nat → Int × Int) (node : Ctrl) (s : TState),
      ∃ s', classify_node b app rng node s = Except.ok s') ∧
    (∀ node : Ctrl, node.data.defaultAction = none →
      is_default_action node = Except.error ()) ∧
    (∀ node : Ctrl, node.data.isImageControl = true →
      node.data.localizedControlType ≠ "graphic" → node.data.isKeyboardFocusable = none →
      is_element_image node = Except.error ()) ∧
    (∀ (b : Bool) (node : Ctrl), is_element_interactive_body b node = Except.error () →
      is_element_interactive b node = false) ∧
    (∀ node : Ctrl, is_element_text_body node = Except.error () →
      is_element_text node = false) ∧
    (∀ node : Ctrl, node.data.isEnabled = none → is_element_enabled node = false) ∧
    (∀ node : Ctrl, node.data.isKeyboardFocusable = none →
      node.data.controlTypeName ∉
        (["EditControl", "ButtonControl", "CheckBoxControl", "RadioButtonControl",
          "TabItemControl"] : List String) →
      is_keyboard_focusable node = false) ∧
    (∀ node : Ctrl, node.data.scrollPattern = none → is_element_scrollable node = false) := by
  refine ⟨fun b app rng node s => classify_node_total b app rng node s,
    fun node h => ?_, fun node h1 h2 h3 => ?_, fun b node h => ?_, fun node h => ?_,
    fun node h => ?_, fun node h1 h2 => ?_, fun node h => ?_⟩
  · unfold is_default_action
    rw [h]
  · unfold is_element_image
    rw [if_pos h1, if_neg h2, h3]
  · unfold is_element_interactive
    rw [h]
  · unfold is_element_text
    rw [h]
  · unfold is_element_enabled
    rw [h]
  · unfold is_keyboard_focusable
    rw [if_neg h2, h1]
  · unfold is_element_scrollable
    rw [h]

theorem c2_amended_witness :
    (∃ s', classify_node true ("App") rngHalf groupNoAction ⟨[], [], [], 0⟩ = Except.ok s') ∧
    is_default_action groupNoAction = Except.error () ∧
    is_element_image imageNoKF = Except.error () ∧
    is_element_interactive true groupNoAction = false ∧
    is_element_text imageNoKF = false ∧
    is_element_enabled noQueryCtrl = false ∧
    is_keyboard_focusable imageNoKF = false ∧
    is_element_scrollable noQueryCtrl = false :=
  ⟨c2_amended.1 true ("App") rngHalf groupNoAction ⟨[], [], [], 0⟩,
    c2_amended.2.1 groupNoAction rfl,
    c2_amended.2.2.1 imageNoKF rfl (by decide) rfl,
    c2_amended.2.2.2.1 true groupNoAction (by decide),
    c2_amended.2.2.2.2.1 imageNoKF (by decide),
    c2_amended.2.2.2.2.2.1 noQueryCtrl rfl,
    c2_amended.2.2.2.2.2.2.1 imageNoKF rfl (by decide),
    c2_amended.2.2.2.2.2.2.2 noQueryCtrl rfl⟩

/-! ### C5 -/

/-- C5: per node the classifiers are evaluated interactive first, then
text, then scrollable, first match winning, so one node never contributes
entries to more than one of the three lists. -/
theorem c5_priority_exclusive (b : Bool) (app : String) (rng : Nat → Int × Int)
    (node : Ctrl) (i : List TreeElementNode) (ti : List TextElementNode)
    (sc : List ScrollElementNode) (r : Nat) :
    ∃ i' ti' sc' r', classify_node b app rng node ⟨i, ti, sc, r⟩ = Except.ok ⟨i', ti', sc', r'⟩ ∧
      (is_element_interactive b node = true → ti' = ti ∧ sc' = sc) ∧
      (is_element_interactive b node = false → is_element_text node = true →
        i' = i ∧ sc' = sc ∧ ti' = ti ++ [textNodeOf app node]) ∧
      (is_element_interactive b node = false → is_element_text node = false →
        is_element_scrollable node = true → i' = i ∧ ti' = ti) ∧
      (is_element_interactive b node = false → is_element_text node = false →
        is_element_scrollable node = false → i' = i ∧ ti' = ti ∧ sc' = sc ∧ r' = r) := by
  by_cases hi : is_element_interactive b node = true
  · cases b with
    | false =>
      refine ⟨i ++ [interactiveNodeOf app rng node r], ti, sc, r + 1,
        classify_node_interactive_native app rng node i ti sc r hi, fun _ => ⟨rfl, rfl⟩,
        fun hx _ => absurd hi (by simp [hx]), fun hx _ _ => absurd hi (by simp [hx]),
        fun hx _ _ => absurd hi (by simp [hx])⟩
    | true =>
      obtain ⟨i', hdc, -⟩ :=
        dom_correction_spec app node i (interactiveNodeOf app rng node r) ti sc (r + 1)
      refine ⟨i', ti, sc, r + 1, ?_, fun _ => ⟨rfl, rfl⟩,
        fun hx _ => absurd hi (by simp [hx]), fun hx _ _ => absurd hi (by simp [hx]),
        fun hx _ _ => absurd hi (by simp [hx])⟩
      rw [classify_node_interactive_browser app rng node i ti sc r hi]
      exact hdc
  · rw [Bool.not_eq_true] at hi
    by_cases ht : is_element_text node = true
    · exact ⟨i, ti ++ [textNodeOf app node], sc, r,
        classify_node_text b app rng node i ti sc r hi ht,
        fun hx => absurd hi (by simp [hx]), fun _ _ => ⟨rfl, rfl, rfl⟩,
        fun _ hx _ => absurd ht (by simp [hx]), fun _ hx _ => absurd ht (by simp [hx])⟩
    · rw [Bool.not_eq_true] at ht
      by_cases hs : is_element_scrollable node = true
      · obtain ⟨sp, hsp, -⟩ := is_element_scrollable_some hs
        exact ⟨i, ti, sc ++ [scrollNodeOf app rng node sp r], r + 1,
          classify_node_scroll b app rng node i ti sc r hi ht hs sp hsp,
          fun hx => absurd hi (by simp [hx]), fun _ hx => absurd ht (by simp [hx]),
          fun _ _ _ => ⟨rfl, rfl⟩, fun _ _ hx => absurd hs (by simp [hx])⟩
      · rw [Bool.not_eq_true] at hs
        exact ⟨i, ti, sc, r, classify_node_skip b app rng node i ti sc r hi ht hs,
          fun hx => absurd hi (by simp [hx]), fun _ hx => absurd ht (by simp [hx]),
          fun _ _ hx => absurd hs (by simp [hx]), fun _ _ _ => ⟨rfl, rfl, rfl, rfl⟩⟩

theorem c5_priority_exclusive_witness :
    ∃ i' ti' sc' r',
      classify_node false ("A") rngHalf demoScrollPane ⟨[], [], [], 0⟩ =
          Except.ok ⟨i', ti', sc', r'⟩ ∧
        (is_element_interactive false demoScrollPane = true → ti' = [] ∧ sc' = []) ∧
        (is_element_interactive false demoScrollPane = false →
          is_element_text demoScrollPane = true →
          i' = [] ∧ sc' = [] ∧ ti' = [] ++ [textNodeOf ("A") demoScrollPane]) ∧
        (is_element_interactive false demoScrollPane = false →
          is_element_text demoScrollPane = false →
          is_element_scrollable demoScrollPane = true → i' = [] ∧ ti' = []) ∧
        (is_element_interactive false demoScrollPane = false →
          is_element_text demoScrollPane = false →
          is_element_scrollable demoScrollPane = false →
          i' = [] ∧ ti' = [] ∧ sc' = [] ∧ r' = 0) :=
  c5_priority_exclusive false ("A") rngHalf demoScrollPane [] [] [] 0

/-! ### C1 -/

theorem empty_box_not_visible (node : Ctrl) (threshold : Int)
    (hw : node.data.boundingRectangle.width = 0) :
    is_element_visible node threshold = false := by
  unfold is_element_visible
  simp [Rect.isempty, hw]

theorem not_visible_not_interactive (b : Bool) (node : Ctrl)
    (hv : is_element_visible node 0 = false) : is_element_interactive b node = false := by
  have hbody : is_element_interactive_body b node = Except.ok false := by
    unfold is_element_interactive_body
    simp [hv, pure, Except.pure]
  unfold is_element_interactive
  rw [hbody]

theorem not_visible_not_text (node : Ctrl)
    (hv : is_element_visible node 0 = false) : is_element_text node = false := by
  have hbody : is_element_text_body node = Except.ok false := by
    unfold is_element_text_body
    simp [hv, pure, Except.pure]
  unfold is_element_text
  rw [hbody]

/-- C1 amended: a node whose bounding box is empty (`width = 0`,
`height = 0`) is classified neither interactive nor text and contributes
no entry to the interactive or informative list; the scrollable classifier
however never consults the bounding box, so such a node can still be
classified scrollable and contribute a scrollable entry. -/
theorem c1_empty_box_never_interactive_or_text (b : Bool) (app : String)
    (rng : Nat → Int × Int) (node : Ctrl) (s : TState)
    (hw : node.data.boundingRectangle.width = 0)
    (_hh : node.data.boundingRectangle.height = 0) :
    is_element_interactive b node = false ∧ is_element_text node = false ∧
      ∃ s', classify_node b app rng node s = Except.ok s' ∧
        s'.interactive_nodes = s.interactive_nodes ∧
        s'.informative_nodes = s.informative_nodes := by
  have hv : is_element_visible node 0 = false := empty_box_not_visible node 0 hw
  have hi : is_element_interactive b node = false := not_visible_not_interactive b node hv
  have ht : is_element_text node = false := not_visible_not_text node hv
  refine ⟨hi, ht, ?_⟩
  obtain ⟨i, ti, sc, r⟩ := s
  by_cases hs : is_element_scrollable node = true
  · obtain ⟨sp, hsp, -⟩ := is_element_scrollable_some hs
    exact ⟨_, classify_node_scroll b app rng node i ti sc r hi ht hs sp hsp, rfl, rfl⟩
  · rw [Bool.not_eq_true] at hs
    exact ⟨_, classify_node_skip b app rng node i ti sc r hi ht hs, rfl, rfl⟩

theorem c1_empty_box_witness :
    is_element_interactive false emptyScrollCtrl = false ∧
      is_element_text emptyScrollCtrl = false ∧
      ∃ s', classify_node false ("Corner") rngHalf emptyScrollCtrl ⟨[], [], [], 0⟩ =
          Except.ok s' ∧
        s'.interactive_nodes = [] ∧ s'.informative_nodes = [] :=
  c1_empty_box_never_interactive_or_text false ("Corner") rngHalf emptyScrollCtrl
    ⟨[], [], [], 0⟩ (by decide) (by decide)

/-- C1 counterexample: a node with an empty bounding box whose scroll
pattern is vertically scrollable is still classified scrollable — the
traversal emits a scrollable entry for it, contradicting the claim that an
empty-box node contributes no entry to any of the three lists. -/
theorem c1_counterexample :
    get_nodes emptyScrollCtrl false rngHalf =
      Except.ok ([], [],
        [{ name := "Corner"
           app_name := "Corner"
           control_type := "Pane"
           bounding_box := { left := 5, top := 5, right := 5, bottom := 5, width := 0, height := 0 }
           center := { x := 5, y := 5 }
           horizontal_scrollable := false
           vertical_scrollable := true }]) := by decide

/-! ### C6 -/

/-- C6: in a browser traversal, an interactive node with localized type
`link` whose first child has localized type `heading` named `Pricing` has
its just-appended entry discarded and replaced by exactly one interactive
node named `Pricing` carrying the heading child's geometry; the first two
DOM-correction rules do not fire on such a node, so exactly one rule
(the third) fires. -/
theorem c6_link_heading_promotion (app : String) (rng : Nat → Int × Int) (node ch : Ctrl)
    (i : List TreeElementNode) (ti : List TextElementNode) (sc : List ScrollElementNode)
    (r : Nat)
    (hint : is_element_interactive true node = true)
    (hlt : node.data.localizedControlType = "link")
    (hng : group_has_no_name node = false)
    (hfc : node.firstChild = some ch)
    (hch : ch.data.localizedControlType = "heading")
    (hname : pystrip ch.data.name = "Pricing") :
    classify_node true app rng node ⟨i, ti, sc, r⟩ =
      Except.ok ⟨i ++
        [{ name := "Pricing"
           control_type := "link"
           shortcut := orSentinel ch.data.acceleratorKey
           bounding_box := mkBoundingBox ch.data.boundingRectangle
           center := { x := ch.data.boundingRectangle.xcenter
                       y := ch.data.boundingRectangle.ycenter }
           app_name := app }], ti, sc, r + 1⟩ := by
  rw [classify_node_interactive_browser app rng node i ti sc r hint]
  have h1 : element_has_child_element node ("list item") ("link") = false := by
    simp [element_has_child_element, hlt]
  have h1b : element_has_child_element node ("item") ("link") = false := by
    simp [element_has_child_element, hlt]
  have h3 : element_has_child_element node ("link") ("heading") = true := by
    simp [element_has_child_element, hlt, hfc, hch]
  have hstrip : stripOrSentinel ch.data.name = "Pricing" := by
    rw [stripOrSentinel, hname]
    rfl
  unfold dom_correction
  simp [h1, h1b, hng, h3, hfc, pop_last_concat, Bind.bind, Except.bind, pure, Except.pure,
    hstrip]

def headingCtrl : Ctrl :=
  Ctrl.mk { baseData with
    name := "Pricing"
    controlTypeName := "TextControl"
    localizedControlType := "heading"
    boundingRectangle := { left := 10, top := 20, right := 110, bottom := 40 } } []

def linkCtrl : Ctrl :=
  Ctrl.mk { baseData with
    name := "Pricing section"
    controlTypeName := "HyperlinkControl"
    localizedControlType := "link"
    isKeyboardFocusable := some true } [headingCtrl]

theorem c6_link_heading_promotion_witness :
    classify_node true ("Browser") rngHalf linkCtrl ⟨[], [], [], 0⟩ =
      Except.ok ⟨[] ++
        [{ name := "Pricing"
           control_type := "link"
           shortcut := orSentinel headingCtrl.data.acceleratorKey
           bounding_box := mkBoundingBox headingCtrl.data.boundingRectangle
           center := { x := headingCtrl.data.boundingRectangle.xcenter
                       y := headingCtrl.data.boundingRectangle.ycenter }
           app_name := "Browser" }], [], [], 0 + 1⟩ :=
  c6_link_heading_promotion ("Browser") rngHalf linkCtrl headingCtrl [] [] [] 0
    (by decide) rfl (by decide) rfl rfl (by decide)

/-! ### C4 -/

/-- The deepest first-child-chain descendant of the C4 scenario: a plain
text node named `Search here`. -/
def searchTextCtrl : Ctrl :=
  Ctrl.mk { baseData with
    name := "Search here"
    controlTypeName := "TextControl"
    localizedControlType := "text"
    isOffscreen := true } []

/-- The intermediate wrapper of the C4 scenario. -/
def searchMidCtrl : Ctrl :=
  Ctrl.mk { baseData with isOffscreen := true } [searchTextCtrl]

/-- The C4 scenario: a generic group control with empty name that is
keyboard-focusable, whose single-child chain ends in the `Search here`
text node; `off` is the group's off-screen flag. -/
def search_group (box : Rect) (off : Bool) : Ctrl :=
  Ctrl.mk { baseData with
    controlTypeName := "GroupControl"
    localizedControlType := "group"
    boundingRectangle := box
    isOffscreen := off
    isKeyboardFocusable := some true } [searchMidCtrl]

/-- The interactive node the unnamed-group expansion synthesizes for the
C4 scenario: Edit-typed, named after the text descendant, at the group's
original bounding box and center. -/
def searchEditNode (box : Rect) : TreeElementNode :=
  { name := "Search here"
    control_type := "Edit"
    shortcut := emptySentinel
    bounding_box := mkBoundingBox box
    center := { x := box.xcenter, y := box.ycenter }
    app_name := "" }

/-- C4 amended: the unnamed-group expansion fires for an *on-screen* (not
off-screen) generic group with empty name that is keyboard-focusable and
whose deepest first-child descendant is the text node `Search here`: the
browser traversal yields exactly one synthesized Edit-typed interactive
node named `Search here` with the group's original bounding box and
center, and zero entries for the original group. -/
theorem c4_unnamed_group_expansion (box : Rect) (rng : Nat → Int × Int)
    (h1 : box.left < box.right) (h2 : box.top < box.bottom) :
    get_nodes (search_group box false) true rng =
      Except.ok ([searchEditNode box], [], []) := by
  have hw : 0 < box.width := by
    unfold Rect.width
    omega
  have hh : 0 < box.height := by
    unfold Rect.height
    omega
  have hvis : is_element_visible (search_group box false) 0 = true := by
    unfold is_element_visible search_group
    simp [Ctrl.data, baseData, Rect.isempty, not_le.mpr hw, not_le.mpr hh, mul_pos hw hh]
  have hint : is_element_interactive true (search_group box false) = true := by
    have hbody : is_element_interactive_body true (search_group box false) = Except.ok true := by
      unfold is_element_interactive_body
      rw [hvis]
      simp [search_group, baseData, Ctrl.data, INTERACTIVE_CONTROL_TYPE_NAMES,
        is_element_enabled, is_default_action, is_keyboard_focusable, pytitle, titleCaseAux,
        DEFAULT_ACTIONS, Bind.bind, Except.bind, pure, Except.pure]
    unfold is_element_interactive
    rw [hbody]
  have hcl : classify_node true ("") rng (search_group box false) ⟨[], [], [], 0⟩ =
      Except.ok ⟨[searchEditNode box], [], [], 1⟩ := by
    rw [classify_node_interactive_browser ("") rng (search_group box false) [] [] [] 0 hint]
    have hr1 : element_has_child_element (search_group box false) ("list item") ("link")
        = false := by
      simp [element_has_child_element, search_group, baseData, Ctrl.data]
    have hr1b : element_has_child_element (search_group box false) ("item") ("link")
        = false := by
      simp [element_has_child_element, search_group, baseData, Ctrl.data]
    have hg : group_has_no_name (search_group box false) = true := by
      simp [group_has_no_name, search_group, baseData, Ctrl.data, pystrip]
    have hkf : is_keyboard_focusable (search_group box false) = true := by
      simp [is_keyboard_focusable, search_group, baseData, Ctrl.data]
    have hdeep : deepest_first_child (search_group box false) = searchTextCtrl := rfl
    unfold dom_correction
    rw [hr1, hr1b, hg, hkf, hdeep]
    simp [pop_last_concat, pop_last_singleton, Bind.bind, Except.bind, pure, Except.pure,
      stripOrSentinel, orSentinel, pystrip, searchTextCtrl, baseData, Ctrl.data, search_group,
      mkBoundingBox, searchEditNode]
  have hkeep : keep_child searchMidCtrl = false := by decide
  have htrav : tree_traversal true ("") rng (search_group box false) ⟨[], [], [], 0⟩ =
      Except.ok ⟨[searchEditNode box], [], [], 1⟩ := by
    unfold tree_traversal
    rw [hcl]
    simp only [search_group]
    dsimp only
    simp [hkeep, traverse_children, baseData]
  have happ : app_name_of (search_group box false) = "" := rfl
  unfold get_nodes
  rw [happ, htrav]

theorem c4_unnamed_group_expansion_witness :
    get_nodes (search_group { left := 0, top := 0, right := 100, bottom := 20 } false) true
        rngHalf =
      Except.ok ([searchEditNode { left := 0, top := 0, right := 100, bottom := 20 }], [], []) :=
  c4_unnamed_group_expansion { left := 0, top := 0, right := 100, bottom := 20 } rngHalf
    (by decide) (by decide)

/-- C4 counterexample: for the *off-screen* group of the claimed scenario
the visibility predicate fails, the group is never classified interactive,
DOM correction never runs, and the browser traversal yields no nodes at
all instead of the claimed synthesized Edit node. -/
theorem c4_counterexample :
    get_nodes (search_group { left := 0, top := 0, right := 100, bottom := 20 } true) true
        rngHalf = Except.ok ([], [], []) := by decide

/-! ### C9 -/

/-- C9 amended: annotating `N` nodes issues exactly `N` rectangle draw
commands and `N` labels; the `k`-th label's text is the string form of the
node's position `k` in the input sequence and the label's box ends at the
top-right corner of the node's scaled and padded box; each rectangle's
color is the `k`-th random draw formatted as a hex color string, with no
uniqueness guarantee across rectangles. -/
theorem c9_renderer_labels (nodes : List TreeElementNode) (sn sd : Int)
    (textlen : String → Int) (color_rng : Nat → Nat) :
    (annotated_screenshot nodes sn sd textlen color_rng).length = nodes.length ∧
      ∀ (k : Nat) (hk : k < (annotated_screenshot nodes sn sd textlen color_rng).length),
        ((annotated_screenshot nodes sn sd textlen color_rng).get ⟨k, hk⟩).label_text =
            toString k ∧
          ((annotated_screenshot nodes sn sd textlen color_rng).get ⟨k, hk⟩).color =
            get_random_color (color_rng k) ∧
          ((annotated_screenshot nodes sn sd textlen color_rng).get ⟨k, hk⟩).label_x2 =
            ((annotated_screenshot nodes sn sd textlen color_rng).get ⟨k, hk⟩).box_right ∧
          ((annotated_screenshot nodes sn sd textlen color_rng).get ⟨k, hk⟩).label_y2 =
            ((annotated_screenshot nodes sn sd textlen color_rng).get ⟨k, hk⟩).box_top := by
  constructor
  · simp [annotated_screenshot]
  · intro k hk
    have hk2 : k < nodes.length := by
      simpa [annotated_screenshot] using hk
    simp only [annotated_screenshot, List.get_eq_getElem, List.getElem_map, List.getElem_zip,
      List.getElem_range, draw_labelled_box]
    exact ⟨trivial, trivial, by omega, by omega⟩

/-- A second demonstration node for the renderer. -/
def demoNodeB : TreeElementNode :=
  { name := "Cancel"
    control_type := "Button"
    shortcut := emptySentinel
    bounding_box := { left := 30, top := 40, right := 90, bottom := 60, width := 60, height := 20 }
    center := { x := 60, y := 50 }
    app_name := "OK" }

theorem c9_renderer_labels_witness :
    (annotated_screenshot [demoButtonNode, demoNodeB] 1 1 (fun _ => 5) (fun _ => 7)).length = 2 ∧
      ((annotated_screenshot [demoButtonNode, demoNodeB] 1 1 (fun _ => 5)
          (fun _ => 7)).get ⟨0, by decide⟩).label_text = toString 0 ∧
      ((annotated_screenshot [demoButtonNode, demoNodeB] 1 1 (fun _ => 5)
          (fun _ => 7)).get ⟨1, by decide⟩).label_text = toString 1 :=
  ⟨(c9_renderer_labels [demoButtonNode, demoNodeB] 1 1 (fun _ => 5) (fun _ => 7)).1.trans rfl,
    ((c9_renderer_labels [demoButtonNode, demoNodeB] 1 1 (fun _ => 5) (fun _ => 7)).2 0
      (by decide)).1,
    ((c9_renderer_labels [demoButtonNode, demoNodeB] 1 1 (fun _ => 5) (fun _ => 7)).2 1
      (by decide)).1⟩

/-- C9 counterexample: with two nodes and a random color stream that
repeats, the renderer draws two rectangles with the *same* color, so the
rectangle colors of one rendering are not pairwise distinct. -/
theorem c9_counterexample :
    ((annotated_screenshot [demoButtonNode, demoNodeB] 1 1 (fun _ => 5)
        (fun _ => 0)).map DrawCmd.color) = ["#000000", "#000000"] := by decide

/-! ### C7 -/

/-- The click point of an emitted interactive node lies inside its
recorded bounding box. -/
def center_in_box (n : TreeElementNode) : Prop :=
  n.bounding_box.left ≤ n.center.x ∧ n.center.x ≤ n.bounding_box.right ∧
    n.bounding_box.top ≤ n.center.y ∧ n.center.y ≤ n.bounding_box.bottom

def rect_of_bounding_box (bb : BoundingBox) : Rect :=
  { left := bb.left, top := bb.top, right := bb.right, bottom := bb.bottom }

/-- The click point is a point of the shrink-factor-`1/2` sampler over the
node's own bounding box, i.e. it lies in the shrunken middle box rather
than being forced to the exact geometric center. -/
def sampled_center (n : TreeElementNode) : Prop :=
  ∃ u v : Int, 0 ≤ u ∧ u ≤ 1000 ∧ 0 ≤ v ∧ v ≤ 1000 ∧
    (n.center.x, n.center.y) =
      random_point_within_bounding_box (rect_of_bounding_box n.bounding_box) 1 2 u v

/-- A platform rectangle is well formed when its sides are ordered. -/
def rectWF (r : Rect) : Bool := decide (r.left ≤ r.right) && decide (r.top ≤ r.bottom)

mutual

/-- Every rectangle in the control tree is well formed. -/
def ctrlWF : Ctrl → Bool
  | .mk d cs => rectWF d.boundingRectangle && ctrlsWF cs

def ctrlsWF : List Ctrl → Bool
  | [] => true
  | c :: rest => ctrlWF c && ctrlsWF rest

end

/-- Every random draw is a pair of thousandths in `[0, 1000]`. -/
def rngWF (rng : Nat → Int × Int) : Prop :=
  ∀ k, 0 ≤ (rng k).1 ∧ (rng k).1 ≤ 1000 ∧ 0 ≤ (rng k).2 ∧ (rng k).2 ≤ 1000

theorem rect_of_mkBoundingBox (box : Rect) :
    rect_of_bounding_box (mkBoundingBox box) = box := rfl

theorem sample_coord_bounds (lo hi fn fd u : Int) (hlh : lo ≤ hi)
    (hfn : 0 ≤ fn) (hffd : fn ≤ fd) (hfd : 0 < fd) (hu0 : 0 ≤ u) (hu1 : u ≤ 1000) :
    lo ≤ (1000 * fd * (lo + hi) - 1000 * fn * (hi - lo) + 2 * fn * (hi - lo) * u) / (2000 * fd)
      ∧ (1000 * fd * (lo + hi) - 1000 * fn * (hi - lo) + 2 * fn * (hi - lo) * u) / (2000 * fd)
        ≤ hi := by
  have hw : (0:ℤ) ≤ hi - lo := by omega
  have hB : (0:ℤ) < 2000 * fd := by omega
  have hP0 : (0:ℤ) ≤ fn * (hi - lo) := mul_nonneg hfn hw
  have hPle : fn * (hi - lo) ≤ fd * (hi - lo) := mul_le_mul_of_nonneg_right hffd hw
  have hQ0 : (0:ℤ) ≤ fn * (hi - lo) * u := mul_nonneg hP0 hu0
  have hQle : fn * (hi - lo) * u ≤ fn * (hi - lo) * 1000 := mul_le_mul_of_nonneg_left hu1 hP0
  set A := 1000 * fd * (lo + hi) - 1000 * fn * (hi - lo) + 2 * fn * (hi - lo) * u with hA
  have hlow : lo * (2000 * fd) ≤ A := by
    have e : A - lo * (2000 * fd)
        = 1000 * (fd * (hi - lo)) - 1000 * (fn * (hi - lo)) + 2 * (fn * (hi - lo) * u) := by
      rw [hA]
      ring
    nlinarith [hPle, hQ0]
  have hhigh : A ≤ hi * (2000 * fd) := by
    have e : hi * (2000 * fd) - A
        = 1000 * (fd * (hi - lo)) + 1000 * (fn * (hi - lo)) - 2 * (fn * (hi - lo) * u) := by
      rw [hA]
      ring
    nlinarith [hQle, hPle]
  constructor
  · exact (Int.le_ediv_iff_mul_le hB).mpr hlow
  · have h1 : A / (2000 * fd) < hi + 1 := by
      rw [Int.ediv_lt_iff_lt_mul hB]
      nlinarith [hhigh, hB]
    omega

theorem random_point_mem (box : Rect) (fn fd u v : Int)
    (hl : box.left ≤ box.right) (ht : box.top ≤ box.bottom)
    (hfn : 0 ≤ fn) (hffd : fn ≤ fd) (hfd : 0 < fd)
    (hu0 : 0 ≤ u) (hu1 : u ≤ 1000) (hv0 : 0 ≤ v) (hv1 : v ≤ 1000) :
    box.left ≤ (random_point_within_bounding_box box fn fd u v).1 ∧
      (random_point_within_bounding_box box fn fd u v).1 ≤ box.right ∧
      box.top ≤ (random_point_within_bounding_box box fn fd u v).2 ∧
      (random_point_within_bounding_box box fn fd u v).2 ≤ box.bottom := by
  have hx := sample_coord_bounds box.left box.right fn fd u hl hfn hffd hfd hu0 hu1
  have hy := sample_coord_bounds box.top box.bottom fn fd v ht hfn hffd hfd hv0 hv1
  simp only [random_point_within_bounding_box, Rect.width, Rect.height]
  exact ⟨hx.1, hx.2, hy.1, hy.2⟩

/-- The midpoint draw of the shrink-factor-`1/2` sampler is exactly the
integer center of the box. -/
theorem sampler_midpoint (box : Rect) :
    random_point_within_bounding_box box 1 2 500 500 = (box.xcenter, box.ycenter) := by
  simp only [random_point_within_bounding_box, Rect.width, Rect.height, Rect.xcenter,
    Rect.ycenter, Prod.mk.injEq]
  constructor
  · omega
  · omega

theorem xcenter_mem (r : Rect) (h : r.left ≤ r.right) :
    r.left ≤ r.xcenter ∧ r.xcenter ≤ r.right := by
  unfold Rect.xcenter Rect.width
  omega

theorem ycenter_mem (r : Rect) (h : r.top ≤ r.bottom) :
    r.top ≤ r.ycenter ∧ r.ycenter ≤ r.bottom := by
  unfold Rect.ycenter Rect.height
  omega

theorem ctrlWF_rect {node : Ctrl} (h : ctrlWF node = true) :
    node.data.boundingRectangle.left ≤ node.data.boundingRectangle.right ∧
      node.data.boundingRectangle.top ≤ node.data.boundingRectangle.bottom := by
  cases node with
  | mk d cs =>
    unfold ctrlWF rectWF at h
    simp only [Bool.and_eq_true, decide_eq_true_eq] at h
    exact ⟨h.1.1, h.1.2⟩

theorem ctrlWF_children {d : CtrlData} {cs : List Ctrl}
    (h : ctrlWF (Ctrl.mk d cs) = true) : ctrlsWF cs = true := by
  unfold ctrlWF at h
  simp only [Bool.and_eq_true] at h
  exact h.2

theorem ctrlsWF_head {c : Ctrl} {rest : List Ctrl} (h : ctrlsWF (c :: rest) = true) :
    ctrlWF c = true := by
  unfold ctrlsWF at h
  simp only [Bool.and_eq_true] at h
  exact h.1

theorem ctrlsWF_tail {c : Ctrl} {rest : List Ctrl} (h : ctrlsWF (c :: rest) = true) :
    ctrlsWF rest = true := by
  unfold ctrlsWF at h
  simp only [Bool.and_eq_true] at h
  exact h.2

theorem ctrlWF_firstChild {node fc : Ctrl} (h : ctrlWF node = true)
    (hfc : node.firstChild = some fc) : ctrlWF fc = true := by
  cases node with
  | mk d cs =>
    cases cs with
    | nil => simp [Ctrl.firstChild, Ctrl.children] at hfc
    | cons c rest =>
      simp only [Ctrl.firstChild, Ctrl.children, List.head?, Option.some.injEq] at hfc
      rw [← hfc]
      exact ctrlsWF_head (ctrlWF_children h)

theorem interactiveNodeOf_center (app : String) (rng : Nat → Int × Int) (node : Ctrl) (r : Nat)
    (hwf : ctrlWF node = true) (hrng : rngWF rng) :
    center_in_box (interactiveNodeOf app rng node r) ∧
      sampled_center (interactiveNodeOf app rng node r) := by
  obtain ⟨hl, ht⟩ := ctrlWF_rect hwf
  obtain ⟨hu0, hu1, hv0, hv1⟩ := hrng r
  have hm := random_point_mem node.data.boundingRectangle 1 2 (rng r).1 (rng r).2 hl ht
    (by omega) (by omega) (by omega) hu0 hu1 hv0 hv1
  constructor
  · unfold center_in_box interactiveNodeOf mkBoundingBox
    exact ⟨hm.1, hm.2.1, hm.2.2.1, hm.2.2.2⟩
  · refine ⟨(rng r).1, (rng r).2, hu0, hu1, hv0, hv1, ?_⟩
    unfold interactiveNodeOf
    rw [show rect_of_bounding_box (mkBoundingBox node.data.boundingRectangle)
      = node.data.boundingRectangle from rfl]

/-- A node whose recorded center is the exact integer center of a
well-formed box satisfies both center invariants. -/
theorem center_node_inv (box : Rect) (hl : box.left ≤ box.right) (ht : box.top ≤ box.bottom)
    (nm ct sh app : String) :
    center_in_box ⟨nm, ct, sh, mkBoundingBox box, ⟨box.xcenter, box.ycenter⟩, app⟩ ∧
      sampled_center ⟨nm, ct, sh, mkBoundingBox box, ⟨box.xcenter, box.ycenter⟩, app⟩ := by
  have hx := xcenter_mem box hl
  have hy := ycenter_mem box ht
  constructor
  · unfold center_in_box mkBoundingBox
    exact ⟨hx.1, hx.2, hy.1, hy.2⟩
  · refine ⟨500, 500, by omega, by omega, by omega, by omega, ?_⟩
    rw [show rect_of_bounding_box (mkBoundingBox box) = box from rfl]
    exact (sampler_midpoint box).symm

theorem pop_last_ok {α : Type} {l l' : List α} (h : pop_last l = Except.ok l') :
    l' = l.dropLast := by
  unfold pop_last at h
  split at h
  · exact absurd h (by simp)
  · simp only [Except.ok.injEq] at h
    exact h.symm

theorem dom_correction_centers (app : String) (node : Ctrl) (hwf : ctrlWF node = true)
    (s s' : TState) (h : dom_correction app node s = Except.ok s')
    (hs : ∀ x ∈ s.interactive_nodes, center_in_box x ∧ sampled_center x) :
    ∀ x ∈ s'.interactive_nodes, center_in_box x ∧ sampled_center x := by
  have hdrop : ∀ x ∈ s.interactive_nodes.dropLast, center_in_box x ∧ sampled_center x :=
    fun x hx => hs x ((List.dropLast_sublist s.interactive_nodes).subset hx)
  unfold dom_correction at h
  by_cases h1 : (element_has_child_element node ("list item") ("link")
      || element_has_child_element node ("item") ("link")) = true
  · rw [if_pos h1] at h
    rcases hp : pop_last s.interactive_nodes with e | i
    · rw [hp] at h
      exact absurd h (by simp [Bind.bind, Except.bind])
    · rw [hp] at h
      simp only [Bind.bind, Except.bind, pure, Except.pure, Except.ok.injEq] at h
      rw [← h]
      intro x hx
      exact hdrop x (by rwa [← pop_last_ok hp])
  · rw [if_neg h1] at h
    by_cases h2 : group_has_no_name node = true
    · rw [if_pos h2] at h
      rcases hp : pop_last s.interactive_nodes with e | i
      · rw [hp] at h
        exact absurd h (by simp [Bind.bind, Except.bind])
      · rw [hp] at h
        simp only [Bind.bind, Except.bind] at h
        by_cases h3 : is_keyboard_focusable node = true
        · rw [if_pos h3] at h
          by_cases h4 : (deepest_first_child node).data.controlTypeName = "TextControl"
          · rw [if_neg (by simp [h4])] at h
            simp only [pure, Except.pure, Except.ok.injEq] at h
            rw [← h]
            intro x hx
            rcases List.mem_append.mp hx with hx | hx
            · exact hdrop x (by rwa [← pop_last_ok hp])
            · simp only [List.mem_singleton] at hx
              rw [hx]
              obtain ⟨hl, ht⟩ := ctrlWF_rect hwf
              exact center_node_inv node.data.boundingRectangle hl ht _ _ _ _
          · rw [if_pos (by simp [h4])] at h
            simp only [pure, Except.pure, Except.ok.injEq] at h
            rw [← h]
            intro x hx
            exact hdrop x (by rwa [← pop_last_ok hp])
        · rw [if_neg h3] at h
          simp only [pure, Except.pure, Except.ok.injEq] at h
          rw [← h]
          intro x hx
          exact hdrop x (by rwa [← pop_last_ok hp])
    · rw [if_neg h2] at h
      by_cases h5 : element_has_child_element node ("link") ("heading") = true
      · rw [if_pos h5] at h
        obtain ⟨-, fc, hfc, -⟩ := element_has_child_element_some h5
        rcases hp : pop_last s.interactive_nodes with e | i
        · rw [hp] at h
          exact absurd h (by simp [Bind.bind, Except.bind])
        · rw [hp, hfc] at h
          simp only [Bind.bind, Except.bind, pure, Except.pure, Except.ok.injEq] at h
          rw [← h]
          intro x hx
          rcases List.mem_append.mp hx with hx | hx
          · exact hdrop x (by rwa [← pop_last_ok hp])
          · simp only [List.mem_singleton] at hx
            rw [hx]
            obtain ⟨hl, ht⟩ := ctrlWF_rect (ctrlWF_firstChild hwf hfc)
            exact center_node_inv fc.data.boundingRectangle hl ht _ _ _ _
      · rw [if_neg h5] at h
        simp only [pure, Except.pure, Except.ok.injEq] at h
        rw [← h]
        exact hs

theorem classify_centers_step (b : Bool) (app : String) (rng : Nat → Int × Int)
    (hrng : rngWF rng) (node : Ctrl) (hwf : ctrlWF node = true) (s s' : TState)
    (hc : classify_node b app rng node s = Except.ok s')
    (hs : ∀ x ∈ s.interactive_nodes, center_in_box x ∧ sampled_center x) :
    ∀ x ∈ s'.interactive_nodes, center_in_box x ∧ sampled_center x := by
  obtain ⟨i, ti, sc, r⟩ := s
  by_cases hi : is_element_interactive b node = true
  · have hnew : ∀ x ∈ i ++ [interactiveNodeOf app rng node r],
        center_in_box x ∧ sampled_center x := by
      intro x hx
      rcases List.mem_append.mp hx with hx | hx
      · exact hs x hx
      · simp only [List.mem_singleton] at hx
        rw [hx]
        exact interactiveNodeOf_center app rng node r hwf hrng
    cases b with
    | false =>
      rw [classify_node_interactive_native app rng node i ti sc r hi] at hc
      simp only [Except.ok.injEq] at hc
      rw [← hc]
      exact hnew
    | true =>
      rw [classify_node_interactive_browser app rng node i ti sc r hi] at hc
      exact dom_correction_centers app node hwf _ s' hc hnew
  · rw [Bool.not_eq_true] at hi
    by_cases ht : is_element_text node = true
    · rw [classify_node_text b app rng node i ti sc r hi ht] at hc
      simp only [Except.ok.injEq] at hc
      rw [← hc]
      exact hs
    · rw [Bool.not_eq_true] at ht
      by_cases hsc : is_element_scrollable node = true
      · obtain ⟨sp, hsp, -⟩ := is_element_scrollable_some hsc
        rw [classify_node_scroll b app rng node i ti sc r hi ht hsc sp hsp] at hc
        simp only [Except.ok.injEq] at hc
        rw [← hc]
        exact hs
      · rw [Bool.not_eq_true] at hsc
        rw [classify_node_skip b app rng node i ti sc r hi ht hsc] at hc
        simp only [Except.ok.injEq] at hc
        rw [← hc]
        exact hs

mutual

theorem tree_traversal_preserves_wf (P : TState → Prop) (b : Bool) (app : String)
    (rng : Nat → Int × Int)
    (hstep : ∀ node s s', ctrlWF node = true →
      classify_node b app rng node s = Except.ok s' → P s → P s')
    (node : Ctrl) (hwf : ctrlWF node = true) (s s' : TState)
    (h : tree_traversal b app rng node s = Except.ok s') (hs : P s) : P s' :=
  match node with
  | .mk d cs => by
    unfold tree_traversal at h
    rcases hc : classify_node b app rng (Ctrl.mk d cs) s with e | s1
    · rw [hc] at h
      exact absurd h (by simp)
    · rw [hc] at h
      dsimp only at h
      by_cases hr : d.childrenRaise
      · rw [if_pos hr] at h
        exact absurd h (by simp)
      · rw [if_neg hr] at h
        exact traverse_children_preserves_wf P b app rng hstep cs (ctrlWF_children hwf)
          s1 s' h (hstep _ _ _ hwf hc hs)

theorem traverse_children_preserves_wf (P : TState → Prop) (b : Bool) (app : String)
    (rng : Nat → Int × Int)
    (hstep : ∀ node s s', ctrlWF node = true →
      classify_node b app rng node s = Except.ok s' → P s → P s')
    (cs : List Ctrl) (hwf : ctrlsWF cs = true) (s s' : TState)
    (h : traverse_children b app rng cs s = Except.ok s') (hs : P s) : P s' :=
  match cs with
  | [] => by
    unfold traverse_children at h
    simp only [Except.ok.injEq] at h
    rwa [← h]
  | c :: rest => by
    unfold traverse_children at h
    by_cases hk : keep_child c
    · rw [if_pos hk] at h
      rcases ht : tree_traversal b app rng c s with e | s1
      · rw [ht] at h
        exact absurd h (by simp)
      · rw [ht] at h
        exact traverse_children_preserves_wf P b app rng hstep rest (ctrlsWF_tail hwf) s1 s' h
          (tree_traversal_preserves_wf P b app rng hstep c (ctrlsWF_head hwf) s s1 ht hs)
    · rw [if_neg hk] at h
      exact traverse_children_preserves_wf P b app rng hstep rest (ctrlsWF_tail hwf) s s' h hs

end

/-- C7: for every `TreeElementNode` emitted by one traversal call over a
tree of well-formed rectangles with in-range random draws, the click
center lies within `[left, right] × [top, bottom]` of its bounding box,
and it is a point of the shrink-factor-`1/2` sampler over that box — a
sampled point of the shrunken middle box rather than a forced exact
geometric center. -/
theorem c7_centers_sampled (node : Ctrl) (b : Bool) (rng : Nat → Int × Int)
    (hwf : ctrlWF node = true) (hrng : rngWF rng)
    (i : List TreeElementNode) (t : List TextElementNode) (sc : List ScrollElementNode)
    (h : get_nodes node b rng = Except.ok (i, t, sc)) :
    ∀ n ∈ i, center_in_box n ∧ sampled_center n := by
  obtain ⟨s', hts, heq⟩ := get_nodes_inv node b rng (i, t, sc) h
  have hfin := tree_traversal_preserves_wf
    (fun s => ∀ x ∈ s.interactive_nodes, center_in_box x ∧ sampled_center x)
    b (app_name_of node) rng
    (fun nd s s' hw hc hs =>
      classify_centers_step b (app_name_of node) rng hrng nd hw s s' hc hs)
    node hwf _ s' hts (by intro x hx; simp at hx)
  have hi : i = s'.interactive_nodes := congrArg (fun p => p.1) heq
  rw [hi]
  exact hfin

theorem rngHalf_wf : rngWF rngHalf := by
  intro k
  show (0:ℤ) ≤ 500 ∧ (500:ℤ) ≤ 1000 ∧ (0:ℤ) ≤ 500 ∧ (500:ℤ) ≤ 1000
  decide

theorem c7_centers_sampled_witness :
    center_in_box demoButtonNode ∧ sampled_center demoButtonNode :=
  c7_centers_sampled demoButton false rngHalf (by decide) rngHalf_wf
    [demoButtonNode] [] [] (by decide) demoButtonNode (by decide)
